import Mathlib

/-!
Shallow embedding of the marvel-by-year core: the cache-through fetch layer
(`src/lib/api.ts`: `getComics`, `getTotalComics`, `getRandomComics`,
`callMarvelApi`, `getComicsSearchParams`) and the search/filter/sort pipeline
of the year page (`filterComics`, `sortComics`, `orderedComics`).

Stateful code is embedded by explicit state passing: the redis store is a
key-value association list threaded through each operation, the upstream API
response is a parameter (the parsed value `await result.json()` would
produce), and each operation returns its result together with the new store
state and a flag recording whether the upstream API was called.
-/

namespace Marvel

/-! ## Data model -/

/-- A calendar date (year, zero-based month as in dayjs `.month()`, day). -/
structure ComicDate where
  year : Int
  month : Nat
  day : Nat
deriving DecidableEq, Repr

/-- The series summary nested in a comic record (`c.series.name`). -/
structure Series where
  name : String
deriving DecidableEq, Repr

/-- A catalog record: id, title, series, creator names, event names,
on-sale (publish) date and unlimited (digital release) date. -/
structure Comic where
  id : Nat
  title : String
  series : Series
  creators : List String
  events : List String
  onsaleDate : ComicDate
  unlimitedDate : ComicDate
deriving DecidableEq, Repr

/-- The parsed upstream response envelope: the application status `code`,
the declared `data.total`, and the returned records (`data.results`). -/
structure ComicDataWrapper where
  code : Int
  total : Nat
  results : List Comic
deriving DecidableEq, Repr

/-- A record returned by the store's random-sampling capability. -/
structure RandomComic where
  id : String
  title : String
deriving DecidableEq, Repr

/-! ## Cache-through fetch layer (`src/lib/api.ts`) -/

/-- `MAX_LIMIT` from `api.ts`. -/
def MAX_LIMIT : Nat := 100

/-- `getComicsSearchParams(year, offset, limit)` from `api.ts`: the fixed
query parameters of a comics request. -/
def getComicsSearchParams (year : Nat) (offset limit : Nat) : List (String × String) :=
  [("formatType", "comic"),
   ("noVariants", "true"),
   ("dateRange", toString year ++ "-01-01," ++ toString year ++ "-12-31"),
   ("hasDigitalIssue", "true"),
   ("limit", toString limit),
   ("offset", toString offset),
   ("orderBy", "modified")]

/-- The parameter set `callMarvelApi` sends: the given params plus the
signing parameters `apikey`, `hash` and `ts`.  The digest function `md5`
(external `crypto-js` library) is passed as an abstract capability; the
source computes `hash = md5(ts + PRIVATE_KEY + PUBLIC_KEY)`. -/
def callMarvelApiParams (params : List (String × String)) (ts publicKey privateKey : String)
    (md5 : String → String) : List (String × String) :=
  params ++ [("apikey", publicKey), ("hash", md5 (ts ++ privateKey ++ publicKey)), ("ts", ts)]

/-- The full parameter list of the upstream request `getComics` issues for
`(year, page)`: `callMarvelApi(COMICS_ENDPOINT, getComicsSearchParams(year,
page * MAX_LIMIT, MAX_LIMIT))`. -/
def getComicsRequest (year page : Nat) (ts publicKey privateKey : String)
    (md5 : String → String) : List (String × String) :=
  callMarvelApiParams (getComicsSearchParams year (page * MAX_LIMIT) MAX_LIMIT)
    ts publicKey privateKey md5

/-- The `cache[page]` lookup in `getComics`: the caller-supplied mapping of
already-known pages, keyed by page index. -/
def lookupPage (cache : List (Nat × ComicDataWrapper)) (page : Nat) : Option ComicDataWrapper :=
  (cache.find? (fun kv => kv.1 == page)).map (fun kv => kv.2)

/-- Result of `getComics`: the returned wrapper, the new store state, and
whether the upstream API was called. -/
structure PageFetchResult where
  result : ComicDataWrapper
  store : List ((Nat × Nat) × ComicDataWrapper)
  calledApi : Bool
deriving DecidableEq, Repr

/-- Modelled from the spec: the store collaborator capability
`addPage(year, pageIndex, page, knownIdsWithImages)` (`redis.addComics` in the
source, implemented outside `src/`): recorded as an insertion keyed by
`(year, page)`; the `knownIdsWithImages` set is opaque bookkeeping used
internally by the store. -/
def addComics (year page : Nat) (w : ComicDataWrapper) (comicIdsWithImages : List String)
    (store : List ((Nat × Nat) × ComicDataWrapper)) : List ((Nat × Nat) × ComicDataWrapper) :=
  let _ := comicIdsWithImages
  ((year, page), w) :: store

/-- `getComics(year, page, cache, comicIdsWithImages)` from `api.ts`:
return the cached page if present; otherwise call the upstream API
(parsed response `upstream`), persist it only when `code === 200`, and
return the parsed result regardless of status. -/
def getComics (year page : Nat) (cache : List (Nat × ComicDataWrapper))
    (comicIdsWithImages : List String) (upstream : ComicDataWrapper)
    (store : List ((Nat × Nat) × ComicDataWrapper)) : PageFetchResult :=
  match lookupPage cache page with
  | some cached => { result := cached, store := store, calledApi := false }
  | none =>
    let parsedResult := upstream
    { result := parsedResult
      store := if parsedResult.code = 200 then
          addComics year page parsedResult comicIdsWithImages store
        else store
      calledApi := true }

/-- The redis key `` `year:${year}:total` `` used by `getTotalComics`. -/
def yearTotalKey (year : Nat) : String := "year:" ++ toString year ++ ":total"

/-- The `redis.get(key, parseInt)` lookup of a cached year total. -/
def lookupKey (store : List (String × Nat)) (key : String) : Option Nat :=
  (store.find? (fun kv => kv.1 == key)).map (fun kv => kv.2)

/-- JavaScript truthiness of the cached numeric value `val`: an absent value
and the number `0` are falsy. -/
def truthyNum : Option Nat → Bool
  | some v => v != 0
  | none => false

/-- Result of `getTotalComics`: the returned total (or `-1` sentinel), the
new store state, and whether the upstream API was called. -/
structure TotalFetchResult where
  result : Int
  store : List (String × Nat)
  calledApi : Bool
deriving DecidableEq, Repr

/-- `getTotalComics(year)` from `api.ts`: serve a truthy cached total unless
`ignoreCache`; otherwise call the upstream API (parsed response `upstream`);
on `code === 200` persist `data.total` and return it, else return `-1`
without persisting. -/
def getTotalComics (year : Nat) (ignoreCache : Bool) (store : List (String × Nat))
    (upstream : ComicDataWrapper) : TotalFetchResult :=
  let key := yearTotalKey year
  let val := lookupKey store key
  if truthyNum val && !ignoreCache then
    { result := (val.getD 0 : Nat), store := store, calledApi := false }
  else if upstream.code = 200 then
    { result := (upstream.total : Nat), store := (key, upstream.total) :: store, calledApi := true }
  else
    { result := -1, store := store, calledApi := true }

/-- Modelled from the spec: `dedupe` from `$lib/util` (implemented outside
`src/`) — "deduplicate the result by id preserving first occurrence
(insertion order)". `seen` accumulates the keys already emitted. -/
def dedupeAux {α β : Type} [DecidableEq β] (key : α → β) (seen : List β) : List α → List α
  | [] => []
  | x :: xs =>
    if key x ∈ seen then dedupeAux key seen xs
    else x :: dedupeAux key (key x :: seen) xs

/-- Modelled from the spec: `dedupe(list, keyFn)` keeps the first occurrence
of each key, in insertion order. -/
def dedupe {α β : Type} [DecidableEq β] (l : List α) (key : α → β) : List α :=
  dedupeAux key [] l

/-- JavaScript truthiness of an optional numeric argument: `undefined` and
the number `0` are falsy. -/
def truthyOpt : Option Int → Bool
  | some v => v != 0
  | none => false

/-- `getRandomComics(startYear?, endYear?)` from `api.ts`: when both bounds
are truthy, sample the year range with a seed derived from the current time
(`now`) and dedupe by id; otherwise delegate to the store's unconditional
sampler. The store's two sampling capabilities are parameters. -/
def getRandomComics (startYear endYear : Option Int) (now : Int)
    (getRandomComicsForYear : Int → Int → Int → List RandomComic)
    (getRandomComicsAny : List RandomComic) : List RandomComic :=
  if truthyOpt startYear && truthyOpt endYear then
    let seed := now
    dedupe (getRandomComicsForYear (startYear.getD 0) (endYear.getD 0) seed) (fun x => x.id)
  else
    getRandomComicsAny

/-! ## Search/filter/sort pipeline (year page) -/

/-- An ascending comparator (−1/0/1) induced by a key into a linear order;
the shape shared by the `$lib/comics` comparators as the spec describes
them. -/
def cmpBy {α γ : Type} [LinearOrder γ] (f : α → γ) (a b : α) : Int :=
  if f a < f b then -1 else if f b < f a then 1 else 0

/-- Modelled from the spec: `compareTitles` from `$lib/comics` (implemented
outside `src/`) — "case-sensitive lexicographic compare on title"; the spec
calls the order the pipeline builds from it ascending-equivalent, so the
comparator is ascending. -/
def compareTitles (a b : Comic) : Int :=
  cmpBy (fun c => c.title.toList) a b

/-- Chronological key of a date: lexicographic (year, month, day). -/
def dateKey (d : ComicDate) : Lex (Int × Lex (Nat × Nat)) :=
  toLex (d.year, toLex (d.month, d.day))

/-- Modelled from the spec: `compareDates` from `$lib/comics` —
"chronological compare on publish date" (ascending). -/
def compareDates (a b : Comic) : Int :=
  cmpBy (fun c => dateKey c.onsaleDate) a b

/-- Modelled from the spec: `compareUnlimitedDates` from `$lib/comics` —
"chronological compare on unlimited-release date" (ascending). -/
def compareUnlimitedDates (a b : Comic) : Int :=
  cmpBy (fun c => dateKey c.unlimitedDate) a b

/-- Modelled from the spec: `getOnSaleDate` from `$lib/comics` — the
record's publish (on-sale) date. -/
def getOnSaleDate (c : Comic) : ComicDate := c.onsaleDate

/-- Modelled from the spec: `isCreatorSelected` from `$lib/comics` — "a
record matches if it has at least one creator in the selected set". -/
def isCreatorSelected (c : Comic) (selected : Finset String) : Bool :=
  c.creators.any (fun cr => decide (cr ∈ selected))

/-- Modelled from the spec: `isEventSelected` from `$lib/comics` — a record
matches if it has at least one event in the selected set. -/
def isEventSelected (c : Comic) (selected : Finset String) : Bool :=
  c.events.any (fun e => decide (e ∈ selected))

/-- `filterComics` from the year page: four AND-combined predicates. The
full universes of available values (`$series`, `$creators`, `$events` store
contents) are the last three parameters; the full-selection shortcut
compares the selected set's size to the universe's size. -/
def filterComics (comics : List Comic)
    (selectedSeries selectedCreators selectedEvents : Finset String)
    (monthIndex : Int)
    (seriesAll creatorsAll eventsAll : Finset String) : List Comic :=
  let noCreatorsSelected := selectedCreators.card = creatorsAll.card
  let noEventsSelected := selectedEvents.card = eventsAll.card
  let noSeriesSelected := selectedSeries.card = seriesAll.card
  comics.filter (fun c =>
    (decide (monthIndex < 0) || decide (((getOnSaleDate c).month : Int) = monthIndex)) &&
    (decide noSeriesSelected || decide (c.series.name ∈ selectedSeries)) &&
    (decide noCreatorsSelected || isCreatorSelected c selectedCreators) &&
    (decide noEventsSelected || isEventSelected c selectedEvents))

/-- Whether the character list `needle` occurs contiguously in `hay`. -/
def charsContain (needle : List Char) : List Char → Bool
  | [] => needle.isEmpty
  | c :: rest => needle.isPrefixOf (c :: rest) || charsContain needle rest

/-- The whitespace-separated words of a string. -/
def titleWords (s : String) : List String :=
  (s.splitOn " ").filter (fun w => w ≠ "")

/-- Whether some word of `t` starts with `s`. -/
def wordStartsWith (s t : String) : Bool :=
  (titleWords t).any (fun w => w.startsWith s)

/-- The acronym of a string: the first characters of its words. -/
def acronymOf (t : String) : String :=
  String.mk ((titleWords t).filterMap (fun w => w.toList.head?))

/-- Modelled from the spec: the ranking tiers of the external match-sorter
library — "full match > starts-with > word-boundary match > contains >
acronym > no-match, case-insensitive"; rank 0 means no match. With empty
search text every item shares one rank. -/
def matchRank (search : String) (title : String) : Nat :=
  if search = "" then 1
  else
    let t := title.toLower
    let s := search.toLower
    if title = search then 7
    else if t = s then 6
    else if t.startsWith s then 5
    else if wordStartsWith s t then 4
    else if charsContain s.toList t.toList then 3
    else if (acronymOf t).startsWith s then 2
    else 0

/-- The default ordering of match-sorter: higher rank first, rank ties
broken by `baseSort` (a −1/0/1 comparator). -/
def matchSorterLe (search : String) (baseSort : Comic → Comic → Int) (a b : Comic) : Bool :=
  decide (matchRank search b.title < matchRank search a.title) ||
    (decide (matchRank search a.title = matchRank search b.title) &&
      decide (baseSort a b ≤ 0))

/-- Modelled from the spec: the external match-sorter library with options
`keys: [title]`, `baseSort`, `sorter` — items with no match are excluded
when search text is non-empty (none are excluded when it is empty); the
matched items are sorted by descending rank with `baseSort` breaking rank
ties, unless a custom `sorter` is supplied, in which case it orders the
matched items instead. -/
def matchSorter (items : List Comic) (search : String)
    (baseSort : Comic → Comic → Int)
    (sorter : Option (List Comic → List Comic)) : List Comic :=
  let matched :=
    if search = "" then items
    else items.filter (fun c => decide (matchRank search c.title ≠ 0))
  match sorter with
  | some f => f matched
  | none => matched.mergeSort (matchSorterLe search baseSort)

/-- A stable sort by a −1/0/1 comparator, as `matchItems.sort(cmp)` in the
custom sort functions. -/
def sortWith (cmp : Comic → Comic → Int) (l : List Comic) : List Comic :=
  l.mergeSort (fun a b => decide (cmp a b ≤ 0))

/-- The `SortOption` enum of the year page. -/
inductive SortOption where
  | bestMatch
  | title
  | publishDate
  | unlimitedDate
deriving DecidableEq, Repr

/-- `sortComics(comics, sortBy, searchText)` from the year page: choose the
custom sorter for the explicit sort keys (none for best match), and the
`baseSort` tie-break by whether search text is present (`searchText ?
compareTitles : compareDates`), then run match-sorter. -/
def sortComics (comics : List Comic) (sortBy : SortOption) (searchText : String) : List Comic :=
  let sortFunction : Option (List Comic → List Comic) :=
    match sortBy with
    | SortOption.publishDate => some (sortWith compareDates)
    | SortOption.title => some (sortWith compareTitles)
    | SortOption.unlimitedDate => some (sortWith compareUnlimitedDates)
    | SortOption.bestMatch => none
  matchSorter comics searchText
    (if searchText ≠ "" then compareTitles else compareDates)
    sortFunction

/-- `orderedComics` from the year page:
`sortDescending ? sortedComics : [...sortedComics].reverse()`. -/
def orderedComics (sortDescending : Bool) (sortedComics : List Comic) : List Comic :=
  if sortDescending then sortedComics else sortedComics.reverse

/-! ## Helper lemmas -/

theorem cmpBy_le_iff {α γ : Type} [LinearOrder γ] (f : α → γ) (a b : α) :
    cmpBy f a b ≤ 0 ↔ f a ≤ f b := by
  unfold cmpBy
  split_ifs with h1 h2
  · norm_num [le_of_lt h1]
  · norm_num [not_le.mpr h2]
  · norm_num [not_lt.mp h2]

theorem matchSorterLe_trans (search : String) {γ : Type} [LinearOrder γ] (f : Comic → γ)
    (a b c : Comic) (hab : matchSorterLe search (cmpBy f) a b = true)
    (hbc : matchSorterLe search (cmpBy f) b c = true) :
    matchSorterLe search (cmpBy f) a c = true := by
  unfold matchSorterLe at hab hbc ⊢
  simp only [Bool.or_eq_true, Bool.and_eq_true, decide_eq_true_eq] at hab hbc ⊢
  rcases hab with h | ⟨h1, h2⟩ <;> rcases hbc with g | ⟨g1, g2⟩
  · exact Or.inl (by omega)
  · exact Or.inl (by omega)
  · exact Or.inl (by omega)
  · exact Or.inr ⟨by omega,
      (cmpBy_le_iff f a c).mpr (le_trans ((cmpBy_le_iff f a b).mp h2) ((cmpBy_le_iff f b c).mp g2))⟩

theorem matchSorterLe_total (search : String) {γ : Type} [LinearOrder γ] (f : Comic → γ)
    (a b : Comic) :
    (matchSorterLe search (cmpBy f) a b || matchSorterLe search (cmpBy f) b a) = true := by
  unfold matchSorterLe
  simp only [Bool.or_eq_true, Bool.and_eq_true, decide_eq_true_eq]
  rcases lt_trichotomy (matchRank search a.title) (matchRank search b.title) with h | h | h
  · exact Or.inr (Or.inl h)
  · rcases le_total (f a) (f b) with hf | hf
    · exact Or.inl (Or.inr ⟨h, (cmpBy_le_iff f a b).mpr hf⟩)
    · exact Or.inr (Or.inr ⟨h.symm, (cmpBy_le_iff f b a).mpr hf⟩)
  · exact Or.inl (Or.inl h)

theorem dedupeAux_map_nodup {α β : Type} [DecidableEq β] (key : α → β) (l : List α) :
    ∀ seen : List β, ((dedupeAux key seen l).map key).Nodup ∧
      ∀ b ∈ (dedupeAux key seen l).map key, b ∉ seen := by
  induction l with
  | nil => intro seen; simp [dedupeAux]
  | cons x xs ih =>
    intro seen
    simp only [dedupeAux]
    split
    · exact ⟨(ih seen).1, (ih seen).2⟩
    · rename_i hx
      refine ⟨?_, ?_⟩
      · simp only [List.map_cons, List.nodup_cons]
        exact ⟨fun hmem => (ih (key x :: seen)).2 _ hmem (List.mem_cons_self _ _),
          (ih (key x :: seen)).1⟩
      · intro b hb
        simp only [List.map_cons, List.mem_cons] at hb
        rcases hb with rfl | hb
        · exact hx
        · exact fun hbs => (ih (key x :: seen)).2 b hb (List.mem_cons_of_mem _ hbs)

theorem dedupe_map_nodup {α β : Type} [DecidableEq β] (l : List α) (key : α → β) :
    ((dedupe l key).map key).Nodup :=
  (dedupeAux_map_nodup key l []).1

theorem dedupeAux_sublist {α β : Type} [DecidableEq β] (key : α → β) (l : List α) :
    ∀ seen : List β, (dedupeAux key seen l).Sublist l := by
  induction l with
  | nil => intro seen; simp [dedupeAux]
  | cons x xs ih =>
    intro seen
    simp only [dedupeAux]
    split
    · exact (ih seen).cons _
    · exact (ih (key x :: seen)).cons₂ _

theorem dedupe_sublist {α β : Type} [DecidableEq β] (l : List α) (key : α → β) :
    (dedupe l key).Sublist l :=
  dedupeAux_sublist key l []

/-! ## Sample data used by witnesses and counterexamples -/

def dateJan1 : ComicDate := ⟨2000, 0, 1⟩

def dateJan2 : ComicDate := ⟨2000, 0, 2⟩

def comicA : Comic := ⟨1, "Alpha", ⟨"S"⟩, ["w1"], ["e1"], dateJan1, dateJan1⟩

def comicB : Comic := ⟨2, "Beta", ⟨"S"⟩, ["w1"], ["e1"], dateJan2, dateJan2⟩

def sampleX : RandomComic := ⟨"x", "X"⟩

def sampleY : RandomComic := ⟨"y", "Y"⟩

def failWrapper : ComicDataWrapper := ⟨409, 7, []⟩

def okWrapper : ComicDataWrapper := ⟨200, 1, [⟨1, "Alpha", ⟨"S"⟩, ["w1"], ["e1"], ⟨2000, 0, 1⟩, ⟨2000, 0, 1⟩⟩]⟩

/-! ## Claims -/

/-- C1 (counterexample): with sort key `title` the pipeline's base order is
ascending by title, yet requesting the descending direction
(`sortDescending = true`) returns the base order unreversed — refuting "the
whole final sequence is reversed exactly when the descending direction is
requested". -/
theorem c1_counterexample :
    orderedComics true (sortComics [comicA, comicB] SortOption.title "") ≠
      (sortComics [comicA, comicB] SortOption.title "").reverse := by
  have hbase : sortComics [comicA, comicB] SortOption.title "" = [comicA, comicB] := by
    have hdef : sortComics [comicA, comicB] SortOption.title "" =
        List.mergeSort [comicA, comicB] (fun a b => decide (compareTitles a b ≤ 0)) := rfl
    rw [hdef]
    exact List.mergeSort_of_sorted (by decide)
  rw [hbase]
  decide

/-- C1 (amended): the pipeline produces a base order from rank and
tie-break, and `orderedComics` reverses the whole final sequence exactly
when the descending direction is NOT requested (the unreversed base order
is served as the descending view); consequently, for every input record
set, sort key and search text — duplicate titles included — the
descending-direction output is the exact element-wise reverse of the
ascending-direction output. -/
theorem c1_direction_is_full_reversal (comics : List Comic) (key : SortOption)
    (search : String) :
    orderedComics true (sortComics comics key search) = sortComics comics key search ∧
    orderedComics false (sortComics comics key search) = (sortComics comics key search).reverse ∧
    orderedComics true (sortComics comics key search) =
      (orderedComics false (sortComics comics key search)).reverse := by
  refine ⟨rfl, rfl, ?_⟩
  simp [orderedComics]

/-- C2: the "full selection = no filter" shortcut for series, creators and
events is decided by comparing the selected set's size with the size of the
full universe of that category (the hypotheses below are size equalities,
not emptiness); when all three selections match their universes in size and
no month filter is active (`monthIndex < 0`), filtering returns exactly the
input record set. -/
theorem c2_full_selection_identity (comics : List Comic)
    (selectedSeries selectedCreators selectedEvents : Finset String)
    (monthIndex : Int) (seriesAll creatorsAll eventsAll : Finset String)
    (hs : selectedSeries.card = seriesAll.card)
    (hc : selectedCreators.card = creatorsAll.card)
    (he : selectedEvents.card = eventsAll.card)
    (hm : monthIndex < 0) :
    filterComics comics selectedSeries selectedCreators selectedEvents monthIndex
      seriesAll creatorsAll eventsAll = comics := by
  unfold filterComics
  apply List.filter_eq_self.mpr
  intro c _
  simp [hs, hc, he, hm]

/-- C2 witness: a concrete record set with full selections and no month
filter passes through unchanged. -/
theorem c2_witness :
    filterComics [comicA] {"S"} {"w1"} {"e1"} (-1) {"S"} {"w1"} {"e1"} = [comicA] :=
  c2_full_selection_identity [comicA] {"S"} {"w1"} {"e1"} (-1) {"S"} {"w1"} {"e1"}
    rfl rfl rfl (by decide)

/-- C3: when `getTotalComics` actually consults the upstream API, a
non-success status yields the sentinel −1 with the store unchanged, and a
repeat call against the resulting store consults the upstream API again; a
success status caches the total under the year key and returns it; every
store entry not already present held a non-negative total, so −1 is never
persisted. -/
theorem c3_total_failure_not_cached (year : Nat) (ignoreCache : Bool)
    (store : List (String × Nat)) (upstream : ComicDataWrapper)
    (hfetch : (getTotalComics year ignoreCache store upstream).calledApi = true) :
    (upstream.code ≠ 200 →
      (getTotalComics year ignoreCache store upstream).result = -1 ∧
      (getTotalComics year ignoreCache store upstream).store = store ∧
      ∀ u2 : ComicDataWrapper,
        (getTotalComics year ignoreCache (getTotalComics year ignoreCache store upstream).store
            u2).calledApi = true) ∧
    (upstream.code = 200 →
      (getTotalComics year ignoreCache store upstream).result = (upstream.total : Int) ∧
      (getTotalComics year ignoreCache store upstream).store =
        (yearTotalKey year, upstream.total) :: store) ∧
    ∀ kv ∈ (getTotalComics year ignoreCache store upstream).store,
      kv ∈ store ∨ (kv.2 : Int) ≠ -1 := by
  by_cases hguard : (truthyNum (lookupKey store (yearTotalKey year)) && !ignoreCache) = true
  · simp [getTotalComics, hguard] at hfetch
  · by_cases hcode : upstream.code = 200
    · refine ⟨fun hne => absurd hcode hne, fun _ => ?_, ?_⟩
      · constructor
        · simp [getTotalComics, hguard, hcode]
        · simp [getTotalComics, hguard, hcode]
      · intro kv hkv
        have hst : (getTotalComics year ignoreCache store upstream).store =
            (yearTotalKey year, upstream.total) :: store := by
          simp [getTotalComics, hguard, hcode]
        rw [hst] at hkv
        rcases List.mem_cons.mp hkv with rfl | hmem
        · right
          simp
        · exact Or.inl hmem
    · refine ⟨fun _ => ⟨?_, ?_, ?_⟩, fun hc => absurd hc hcode, ?_⟩
      · simp [getTotalComics, hguard, hcode]
      · simp [getTotalComics, hguard, hcode]
      · intro u2
        have hst : (getTotalComics year ignoreCache store upstream).store = store := by
          simp [getTotalComics, hguard, hcode]
        rw [hst]
        by_cases h2 : u2.code = 200 <;> simp [getTotalComics, hguard, h2]
      · intro kv hkv
        have hst : (getTotalComics year ignoreCache store upstream).store = store := by
          simp [getTotalComics, hguard, hcode]
        rw [hst] at hkv
        exact Or.inl hkv

/-- C3 witness: a concrete failed fetch (status 409) on an empty store
returns −1 and leaves the store empty. -/
theorem c3_witness :
    (getTotalComics 1990 false [] failWrapper).result = -1 ∧
    (getTotalComics 1990 false [] failWrapper).store = [] := by
  have h := c3_total_failure_not_cached 1990 false [] failWrapper (by decide)
  exact ⟨(h.1 (by decide)).1, (h.1 (by decide)).2.1⟩

/-- C4: on a cache miss, `getComics` returns the parsed upstream page
regardless of its status code, and writes to the store exactly when the
parsed status code is 200 (the write being the page keyed by
`(year, page)`); a failed fetch leaves the store untouched. -/
theorem c4_persist_iff_success (year page : Nat) (cache : List (Nat × ComicDataWrapper))
    (ids : List String) (upstream : ComicDataWrapper)
    (store : List ((Nat × Nat) × ComicDataWrapper))
    (hmiss : lookupPage cache page = none) :
    (getComics year page cache ids upstream store).result = upstream ∧
    ((getComics year page cache ids upstream store).store ≠ store ↔ upstream.code = 200) ∧
    (upstream.code = 200 →
      (getComics year page cache ids upstream store).store =
        ((year, page), upstream) :: store) ∧
    (upstream.code ≠ 200 → (getComics year page cache ids upstream store).store = store) := by
  by_cases hcode : upstream.code = 200
  · refine ⟨?_, ?_, fun _ => ?_, fun hne => absurd hcode hne⟩
    · simp [getComics, hmiss]
    · have hst : (getComics year page cache ids upstream store).store =
          ((year, page), upstream) :: store := by
        simp [getComics, hmiss, hcode, addComics]
      rw [hst]
      simp [hcode, List.cons_ne_self]
    · simp [getComics, hmiss, hcode, addComics]
  · refine ⟨?_, ?_, fun hc => absurd hc hcode, fun _ => ?_⟩
    · simp [getComics, hmiss]
    · simp [getComics, hmiss, hcode]
    · simp [getComics, hmiss, hcode]

/-- C4 witness: a concrete cache miss with a success response is persisted
and returned. -/
theorem c4_witness :
    (getComics 1990 0 [] [] okWrapper []).result = okWrapper ∧
    ((getComics 1990 0 [] [] okWrapper []).store ≠
      ([] : List ((Nat × Nat) × ComicDataWrapper)) ↔ okWrapper.code = 200) ∧
    (okWrapper.code = 200 →
      (getComics 1990 0 [] [] okWrapper []).store = ((1990, 0), okWrapper) :: []) ∧
    (okWrapper.code ≠ 200 → (getComics 1990 0 [] [] okWrapper []).store = []) :=
  c4_persist_iff_success 1990 0 [] [] okWrapper [] (by decide)

/-- C5: when the caller-supplied cache contains the page index, `getComics`
returns that cached page with no upstream call and no store write, whatever
the upstream response and store state are; in particular two calls with the
same cache return identical page content. -/
theorem c5_cache_hit_no_fetch (year page : Nat) (cache : List (Nat × ComicDataWrapper))
    (ids : List String) (w : ComicDataWrapper)
    (hhit : lookupPage cache page = some w) :
    ∀ (upstream : ComicDataWrapper) (store : List ((Nat × Nat) × ComicDataWrapper)),
      (getComics year page cache ids upstream store).result = w ∧
      (getComics year page cache ids upstream store).calledApi = false ∧
      (getComics year page cache ids upstream store).store = store ∧
      ∀ (u2 : ComicDataWrapper) (s2 : List ((Nat × Nat) × ComicDataWrapper)),
        (getComics year page cache ids u2 s2).result =
          (getComics year page cache ids upstream store).result := by
  intro upstream store
  refine ⟨?_, ?_, ?_, ?_⟩ <;> simp [getComics, hhit]

/-- C5 witness: a concrete cache hit is served with no upstream call and no
store write. -/
theorem c5_witness :
    (getComics 1990 3 [(3, okWrapper)] [] failWrapper []).result = okWrapper ∧
    (getComics 1990 3 [(3, okWrapper)] [] failWrapper []).calledApi = false ∧
    (getComics 1990 3 [(3, okWrapper)] [] failWrapper []).store = [] := by
  have h := c5_cache_hit_no_fetch 1990 3 [(3, okWrapper)] [] okWrapper (by decide)
    failWrapper []
  exact ⟨h.1, h.2.1, h.2.2.1⟩

/-- C6: with both bounds truthy, `getRandomComics` delegates to the store's
range sampler with the time-derived seed and deduplicates by id preserving
first occurrence (the result is a sublist of the sample); the returned
sequence has no duplicate ids, for any seed and any sample the store
returns. -/
theorem c6_random_dedup (startYear endYear : Option Int) (now : Int)
    (rangeSampler : Int → Int → Int → List RandomComic) (anySample : List RandomComic)
    (hs : truthyOpt startYear = true) (he : truthyOpt endYear = true) :
    getRandomComics startYear endYear now rangeSampler anySample =
      dedupe (rangeSampler (startYear.getD 0) (endYear.getD 0) now) (fun x => x.id) ∧
    (getRandomComics startYear endYear now rangeSampler anySample).Sublist
      (rangeSampler (startYear.getD 0) (endYear.getD 0) now) ∧
    ((getRandomComics startYear endYear now rangeSampler anySample).map
      (fun x => x.id)).Nodup := by
  have heq : getRandomComics startYear endYear now rangeSampler anySample =
      dedupe (rangeSampler (startYear.getD 0) (endYear.getD 0) now) (fun x => x.id) := by
    simp [getRandomComics, hs, he]
  refine ⟨heq, ?_, ?_⟩
  · rw [heq]
    exact dedupe_sublist _ _
  · rw [heq]
    exact dedupe_map_nodup _ _

/-- C6 witness: a concrete range sample containing a duplicated id comes
back with no duplicate ids. -/
theorem c6_witness :
    ((getRandomComics (some 1990) (some 1999) 5
        (fun _ _ _ => [sampleX, sampleX, sampleY]) []).map (fun x => x.id)).Nodup :=
  (c6_random_dedup (some 1990) (some 1999) 5
    (fun _ _ _ => [sampleX, sampleX, sampleY]) [] (by decide) (by decide)).2.2

/-- C7: under the best-match/default sort key the same-rank tie-break
depends on whether search text is present: with empty search text the
output is a permutation of the input ordered chronologically by publish
date (all records share the no-search rank); with non-empty search text,
records of equal match rank appear in title order. -/
theorem c7_bestMatch_tiebreak (comics : List Comic) (search : String) :
    ((sortComics comics SortOption.bestMatch "").Perm comics ∧
      (sortComics comics SortOption.bestMatch "").Pairwise
        (fun a b => compareDates a b ≤ 0)) ∧
    (search ≠ "" →
      (sortComics comics SortOption.bestMatch search).Pairwise
        (fun a b => matchRank search a.title = matchRank search b.title →
          compareTitles a b ≤ 0)) := by
  constructor
  · have hdef : sortComics comics SortOption.bestMatch "" =
        List.mergeSort comics (matchSorterLe "" compareDates) := by
      simp [sortComics, matchSorter]
    constructor
    · rw [hdef]
      exact List.mergeSort_perm comics _
    · rw [hdef]
      have hsorted := @List.sorted_mergeSort Comic (matchSorterLe "" compareDates)
        (fun a b c hab hbc =>
          matchSorterLe_trans "" (fun c => dateKey c.onsaleDate) a b c hab hbc)
        (fun a b => matchSorterLe_total "" (fun c => dateKey c.onsaleDate) a b)
        comics
      refine hsorted.imp ?_
      intro a b h
      simp only [matchSorterLe, matchRank, if_pos rfl, Bool.or_eq_true, Bool.and_eq_true,
        decide_eq_true_eq] at h
      rcases h with h | ⟨_, h2⟩
      · exact absurd h (lt_irrefl 1)
      · exact h2
  · intro hne
    have hdef : sortComics comics SortOption.bestMatch search =
        List.mergeSort (comics.filter (fun c => decide (matchRank search c.title ≠ 0)))
          (matchSorterLe search compareTitles) := by
      simp [sortComics, matchSorter, hne]
    rw [hdef]
    have hsorted := @List.sorted_mergeSort Comic (matchSorterLe search compareTitles)
      (fun a b c hab hbc =>
        matchSorterLe_trans search (fun c => c.title.toList) a b c hab hbc)
      (fun a b => matchSorterLe_total search (fun c => c.title.toList) a b)
      (comics.filter (fun c => decide (matchRank search c.title ≠ 0)))
    refine hsorted.imp ?_
    intro a b h hrank
    simp only [matchSorterLe, Bool.or_eq_true, Bool.and_eq_true, decide_eq_true_eq] at h
    rcases h with h | ⟨_, h2⟩
    · exact absurd hrank (by omega)
    · exact h2

/-- C7 witness: a concrete non-empty search, applied to records of equal
match rank, orders them by title. -/
theorem c7_witness :
    (sortComics [comicB, comicA] SortOption.bestMatch "a").Pairwise
      (fun a b => matchRank "a" a.title = matchRank "a" b.title →
        compareTitles a b ≤ 0) :=
  (c7_bestMatch_tiebreak [comicB, comicA] "a").2 (by decide)

/-- C8: the upstream request for year `Y` and page `P` carries exactly the
fixed comics query parameters, `limit=100`, `offset=P*100`,
`orderBy=modified`, plus the signing parameters `apikey` (public key), `ts`
(timestamp) and `hash`, the digest of timestamp + private key + public key
under the digest capability `md5`. -/
theorem c8_request_params (year page : Nat) (ts publicKey privateKey : String)
    (md5 : String → String) :
    getComicsRequest year page ts publicKey privateKey md5 =
      [("formatType", "comic"),
       ("noVariants", "true"),
       ("dateRange", toString year ++ "-01-01," ++ toString year ++ "-12-31"),
       ("hasDigitalIssue", "true"),
       ("limit", "100"),
       ("offset", toString (page * 100)),
       ("orderBy", "modified"),
       ("apikey", publicKey),
       ("hash", md5 (ts ++ privateKey ++ publicKey)),
       ("ts", ts)] := rfl

/-- C9: a cached year total equal to 0 fails the truthiness guard, so
`getTotalComics` consults the upstream API anyway, and its result comes
from the upstream response rather than from the cache. -/
theorem c9_zero_cached_total_refetches (year : Nat) (store : List (String × Nat))
    (upstream : ComicDataWrapper)
    (hzero : lookupKey store (yearTotalKey year) = some 0) :
    (getTotalComics year false store upstream).calledApi = true ∧
    (getTotalComics year false store upstream).result =
      (if upstream.code = 200 then (upstream.total : Int) else -1) := by
  by_cases hcode : upstream.code = 200 <;>
    constructor <;> simp [getTotalComics, hzero, truthyNum, hcode]

/-- C9 witness: a store whose cached total for 1990 is 0 does not serve it;
the upstream API is consulted. -/
theorem c9_witness :
    (getTotalComics 1990 false [("year:1990:total", 0)] okWrapper).calledApi = true ∧
    (getTotalComics 1990 false [("year:1990:total", 0)] okWrapper).result =
      (if okWrapper.code = 200 then (okWrapper.total : Int) else -1) :=
  c9_zero_cached_total_refetches 1990 [("year:1990:total", 0)] okWrapper (by decide)

/-- C10: when either bound is absent or the number 0, `getRandomComics`
delegates to the store's unconditional sampler and returns its sample
unchanged — no deduplication by id is applied to it. -/
theorem c10_untruthy_bounds_fallback (startYear endYear : Option Int) (now : Int)
    (rangeSampler : Int → Int → Int → List RandomComic) (anySample : List RandomComic)
    (h : ¬(truthyOpt startYear = true ∧ truthyOpt endYear = true)) :
    getRandomComics startYear endYear now rangeSampler anySample = anySample := by
  have hb : (truthyOpt startYear && truthyOpt endYear) = false := by
    cases hs : truthyOpt startYear <;> cases he : truthyOpt endYear <;> simp_all
  simp [getRandomComics, hb]

/-- C10 witness: with an endYear of 0 the unconditional sample is returned
as-is, duplicate ids included. -/
theorem c10_witness :
    getRandomComics (some 1990) (some 0) 5 (fun _ _ _ => []) [sampleX, sampleX] =
      [sampleX, sampleX] :=
  c10_untruthy_bounds_fallback (some 1990) (some 0) 5 (fun _ _ _ => [])
    [sampleX, sampleX] (by decide)

end Marvel
